import Mathlib

/-!
Shallow embedding of the device-connection dispatcher module
(`ssh_dispather.py`) of this repository, together with theorems settling
the specification claims about it.

Conventions of the embedding:
* Python exceptions become values of `PyExc`; a Python function that can
  raise returns `Except PyExc α`.
* The behaviour of the external transport library (what happens when a
  connection is actually opened) is a parameter `OpenOutcome` of each
  dispatcher entry point, so claims can quantify over failure categories.
* Python's substring operator `x in s` on strings becomes `strIn x s`.
* The module-level registries (`CLASS_MAPPER`, `FILE_TRANSFER_MAP`, the
  `platforms*` lists/strings) are absent from the available source slice;
  they are modelled from the spec and from the vendor-class import list
  that is present in the source.
-/

namespace SshDispatcher

/-- Python exception values relevant to the dispatcher, each carrying the
string produced by `str(e)`.  `UnboundLocal` models Python's
`UnboundLocalError` (reading a local variable that no branch assigned),
`TypeErr` the `TypeError` raised by `None in some_string`. -/
inductive PyExc where
  | ValueErr (m : String)
  | KeyErr (m : String)
  | NetmikoTimeout (m : String)
  | NetmikoAuth (m : String)
  | ConnectionRefused (m : String)
  | ConnectionExc (m : String)
  | UnboundLocal (m : String)
  | TypeErr (m : String)
  | OtherExc (m : String)
deriving DecidableEq, Repr

/-- The payload string of an exception, Python's `str(e)`. -/
def PyExc.msg : PyExc → String
  | .ValueErr m | .KeyErr m | .NetmikoTimeout m | .NetmikoAuth m
  | .ConnectionRefused m | .ConnectionExc m | .UnboundLocal m
  | .TypeErr m | .OtherExc m => m

/-- What the external transport does when the session is actually opened
(`_open` / auto-connect inside the handler constructor): either it
succeeds or it raises some exception. -/
inductive OpenOutcome where
  | success
  | raiseExc (e : PyExc)
deriving DecidableEq, Repr

/-- `listBeginsWith n l` : the character list `l` starts with `n`. -/
def listBeginsWith : List Char → List Char → Bool
  | [], _ => true
  | _ :: _, [] => false
  | a :: as, b :: bs => a == b && listBeginsWith as bs

/-- `listContainsSub n l` : `n` occurs as a contiguous sublist of `l`. -/
def listContainsSub (needle : List Char) : List Char → Bool
  | [] => needle.isEmpty
  | b :: bs => listBeginsWith needle (b :: bs) || listContainsSub needle bs

/-- Python's substring test `needle in haystack` on strings. -/
def strIn (needle haystack : String) : Bool :=
  listContainsSub needle.data haystack.data

/-- Modelled from the spec: the base (suffix-free) platform registry that
is missing from the source slice.  The spec's Platform Registry is "a
mapping from device-type string to connection-handler type, populated at
startup from a fixed list of supported platforms"; the handler type names
are taken from the vendor-class import list present in the source.  Kept
alphabetically sorted, as `platforms_str` is built from the sorted key
list. -/
def CLASS_MAPPER_BASE : List (String × String) :=
  [("arista_eos", "AristaSSH"),
   ("ciena_saos", "CienaSaosSSH"),
   ("cisco_asa", "CiscoAsaSSH"),
   ("cisco_ios", "CiscoIosSSH"),
   ("cisco_nxos", "CiscoNxosSSH"),
   ("cisco_xr", "CiscoXrSSH"),
   ("dell_os10", "DellOS10SSH"),
   ("extreme_exos", "ExtremeExosSSH"),
   ("terminal_server", "TerminalServerSSH")]

/-- Modelled from the spec: the full platform registry `CLASS_MAPPER`,
missing from the source slice.  Every base platform is also reachable
under an `_ssh`-suffixed alias (the source's Telnet-fallback logic
substitutes `_ssh` with `_telnet`, and its comment says the base form
"does not have the '_ssh' suffix"), and the Telnet and serial variants
whose handler classes the source imports are separate keys (the spec's
glossary: "cisco_ios", "cisco_ios_telnet" are distinct device-types). -/
def CLASS_MAPPER : List (String × String) :=
  CLASS_MAPPER_BASE ++
  (CLASS_MAPPER_BASE.map fun p => (p.1 ++ "_ssh", p.2)) ++
  [("arista_eos_telnet", "AristaTelnet"),
   ("cisco_ios_telnet", "CiscoIosTelnet"),
   ("cisco_xr_telnet", "CiscoXrTelnet"),
   ("extreme_exos_telnet", "ExtremeExosTelnet"),
   ("cisco_ios_serial", "CiscoIosSerial")]

/-- The list of valid device-type keys (`platforms` in the source). -/
def platforms : List String := CLASS_MAPPER.map Prod.fst

/-- The sorted base platform names. -/
def platforms_base : List String := CLASS_MAPPER_BASE.map Prod.fst

/-- Modelled from the spec: the display string of valid platforms used in
error messages; per the source comment it holds the base form (no `_ssh`
suffix), one name per line. -/
def platforms_str : String :=
  "\n" ++ String.intercalate "\n" platforms_base

/-- The Telnet-only device-type keys. -/
def telnet_platforms : List String :=
  platforms.filter fun x => strIn "telnet" x

/-- Modelled from the spec: the display string of Telnet platforms used in
error messages when the caller's intent string mentions telnet. -/
def telnet_platforms_str : String :=
  "\n" ++ String.intercalate "\n" telnet_platforms

/-- A connection handle: an instantiated handler object holding host,
port, device_type, its effective class, and an open/closed session state
(spec section 3, "Connection Handle"). -/
structure BaseConnection where
  host : String
  port : Nat
  device_type : String
  cls : String
  is_open : Bool
deriving DecidableEq, Repr

/-- The keyword arguments of a dispatch call that the dispatcher itself
inspects; all other transport options are passed through verbatim to the
handler and do not influence dispatch (spec section 6).  `device_type`
is `none` when the caller passes `device_type=None`. -/
structure ConnParams where
  device_type : Option String
  host : String
  port : Nat
  auto_connect : Bool
deriving DecidableEq, Repr

/-- `ssh_dispatcher` from the source: select the class to be instantiated
based on vendor/platform, by registry lookup (a missing key is a Python
`KeyError`). -/
def ssh_dispatcher (device_type : String) : Except PyExc String :=
  match CLASS_MAPPER.lookup device_type with
  | some c => Except.ok c
  | none => Except.error (PyExc.KeyErr device_type)

/-- Modelled from the spec: instantiation `ConnectionClass(**kwargs)` of
the external handler class, "returning an unopened or auto-opened handle
depending on configuration" — with `auto_connect` the constructor opens
the session at once (so the open outcome decides whether it raises),
otherwise it returns an unopened handle. -/
def constructConnection (cls dt : String) (kwargs : ConnParams)
    (beh : OpenOutcome) : Except PyExc BaseConnection :=
  if kwargs.auto_connect then
    match beh with
    | OpenOutcome.success =>
        Except.ok ⟨kwargs.host, kwargs.port, dt, cls, true⟩
    | OpenOutcome.raiseExc e => Except.error e
  else
    Except.ok ⟨kwargs.host, kwargs.port, dt, cls, false⟩

/-- `net_connect._open()` of the external library: opens the session of an
existing handle, raising whatever the transport raises. -/
def conn_open (beh : OpenOutcome) (h : BaseConnection) :
    Except PyExc BaseConnection :=
  match beh with
  | OpenOutcome.success => Except.ok { h with is_open := true }
  | OpenOutcome.raiseExc e => Except.error e

/-- The error message of `ConnectHandler` for an unsupported device type,
as built by the source's `raise ValueError(...)`. -/
def unsupportedMsg (device_type : Option String) : String :=
  "Unsupported 'device_type' currently supported platforms are: " ++
    (match device_type with
     | none => platforms_str
     | some dt => if strIn "telnet" dt then telnet_platforms_str
                  else platforms_str)

/-- `ConnectHandler` from the source: if the device type is not a
registered platform, raise `ValueError` listing the valid platforms
(Telnet-filtered when the intent string contains "telnet"; `None` is
never a registered platform and gets the unfiltered list); otherwise look
the class up via `ssh_dispatcher` and construct it with the supplied
arguments. -/
def ConnectHandler (beh : OpenOutcome) (kwargs : ConnParams) :
    Except PyExc BaseConnection :=
  match kwargs.device_type with
  | none => Except.error (PyExc.ValueErr (unsupportedMsg none))
  | some dt =>
    if platforms.contains dt = false then
      Except.error (PyExc.ValueErr (unsupportedMsg (some dt)))
    else
      match ssh_dispatcher dt with
      | Except.error e => Except.error e
      | Except.ok ConnectionClass =>
          constructConnection ConnectionClass dt kwargs beh

/-- The exception classes caught by `TelnetFallback`'s `except` clause:
`NetmikoTimeoutException` and `ConnectionRefusedError`. -/
def isTimeoutOrRefused : PyExc → Bool
  | PyExc.NetmikoTimeout _ => true
  | PyExc.ConnectionRefused _ => true
  | _ => false

/-- `TelnetFallback` from the source: try `ConnectHandler`; on timeout or
refused connection, compute `alternative_device` — `device_type +
"_telnet"` when `device_type` occurs in `platforms_str` (Python substring
test), else `re.sub("_ssh", "_telnet", device_type)` when `"_ssh"` occurs
in it, else the local stays unassigned and reading it raises
`UnboundLocalError`.  If the alternative is a registered platform, retry
`ConnectHandler` once with it; otherwise `raise` re-raises the original
error.  (`beh1`, `beh2` are the transport outcomes of the two attempts;
a `None` device type reaching the handler would make `None in
platforms_str` raise `TypeError`.) -/
def TelnetFallback (beh1 beh2 : OpenOutcome) (kwargs : ConnParams) :
    Except PyExc BaseConnection :=
  match ConnectHandler beh1 kwargs with
  | Except.ok h => Except.ok h
  | Except.error e =>
    if isTimeoutOrRefused e then
      match kwargs.device_type with
      | none =>
          Except.error (PyExc.TypeErr
            "argument of type NoneType is not iterable")
      | some device_type =>
        let alternative_device : Option String :=
          if strIn device_type platforms_str then
            some (device_type ++ "_telnet")
          else if strIn "_ssh" device_type then
            some (device_type.replace "_ssh" "_telnet")
          else none
        match alternative_device with
        | none =>
            Except.error (PyExc.UnboundLocal
              "local variable referenced before assignment")
        | some ad =>
          if platforms.contains ad then
            ConnectHandler beh2 { kwargs with device_type := some ad }
          else Except.error e
    else Except.error e

/-- The level of a line sent to the logger. -/
inductive LogLevel where
  | info
  | error
deriving DecidableEq, Repr

/-- `ConnLogOnly` from the source: force `auto_connect = False`, dispatch,
record host/port/device_type, then `_open()`.  On success, log one info
line and return the handle; on `NetmikoAuthenticationException`,
`NetmikoTimeoutException` (sub-categorised by substrings of the message)
or any other exception, log one categorised error line and return `None`.
The result pairs the returned value with the list of lines sent to the
logger.  If `ConnectHandler` itself raised an authentication or timeout
exception, the handler bodies would read the still-unassigned locals
`hostname`/`port` and raise `UnboundLocalError` — kept faithfully,
though unreachable since the unopened constructor cannot raise those. -/
def ConnLogOnly (beh : OpenOutcome) (kwargs : ConnParams) :
    Except PyExc (Option BaseConnection × List (LogLevel × String)) :=
  match ConnectHandler beh { kwargs with auto_connect := false } with
  | Except.error e =>
    match e with
    | PyExc.NetmikoAuth _ =>
        Except.error (PyExc.UnboundLocal "hostname")
    | PyExc.NetmikoTimeout _ =>
        Except.error (PyExc.UnboundLocal "hostname")
    | _ =>
        Except.ok (none,
          [(LogLevel.error,
            "An unknown exception occurred during connection:\n\n" ++
              e.msg)])
  | Except.ok net_connect =>
    let hostname := net_connect.host
    let port := net_connect.port
    let device_type := net_connect.device_type
    match conn_open beh net_connect with
    | Except.ok nc =>
        Except.ok (some nc,
          [(LogLevel.info,
            "Netmiko connection succesful to " ++ hostname ++ ":" ++
              toString port)])
    | Except.error (PyExc.NetmikoAuth em) =>
        Except.ok (none,
          [(LogLevel.error,
            "Authentication failure to: " ++ hostname ++ ":" ++
              toString port ++ " (" ++ device_type ++ ")\n\n" ++ em)])
    | Except.error (PyExc.NetmikoTimeout em) =>
        if strIn "DNS failure" em then
          Except.ok (none,
            [(LogLevel.error,
              "Device failed due to a DNS failure, hostname " ++
                hostname)])
        else if strIn "TCP connection to device failed" em then
          Except.ok (none,
            [(LogLevel.error,
              "Netmiko was unable to reach the provided host and port: "
                ++ hostname ++ ":" ++ toString port ++ "\n\n" ++ em)])
        else
          Except.ok (none,
            [(LogLevel.error,
              "An unknown NetmikoTimeoutException occurred:\n\n" ++ em)])
    | Except.error e =>
        Except.ok (none,
          [(LogLevel.error,
            "An unknown exception occurred during connection:\n\n" ++
              e.msg)])

/-- `ConnUnify` from the source: force `auto_connect = False`, dispatch,
build `general_msg` from host/port/device_type, then `_open()` and return
the open handle.  Authentication and timeout failures raise
`ConnectionException(general_msg + str(e))`; every other exception raises
`ConnectionException` with an "unknown exception" message around
`str(e)`.  As in `ConnLogOnly`, an authentication or timeout exception
out of `ConnectHandler` itself would hit the unassigned `general_msg`. -/
def ConnUnify (beh : OpenOutcome) (kwargs : ConnParams) :
    Except PyExc BaseConnection :=
  match ConnectHandler beh { kwargs with auto_connect := false } with
  | Except.error e =>
    match e with
    | PyExc.NetmikoAuth _ =>
        Except.error (PyExc.UnboundLocal "general_msg")
    | PyExc.NetmikoTimeout _ =>
        Except.error (PyExc.UnboundLocal "general_msg")
    | _ =>
        Except.error (PyExc.ConnectionExc
          ("An unknown exception occurred during connection:\n\n" ++
            e.msg))
  | Except.ok net_connect =>
    let hostname := net_connect.host
    let port := net_connect.port
    let device_type := net_connect.device_type
    let general_msg := "Connection failure to " ++ hostname ++ ":" ++
      toString port ++ " (" ++ device_type ++ ")\n\n"
    match conn_open beh net_connect with
    | Except.ok nc => Except.ok nc
    | Except.error (PyExc.NetmikoAuth em) =>
        Except.error (PyExc.ConnectionExc (general_msg ++ em))
    | Except.error (PyExc.NetmikoTimeout em) =>
        Except.error (PyExc.ConnectionExc (general_msg ++ em))
    | Except.error e =>
        Except.error (PyExc.ConnectionExc
          ("An unknown exception occurred during connection:\n\n" ++
            e.msg))

/-- `redispatch` from the source: dynamically change the handle's class —
look the new class up (a missing key is a `KeyError` out of
`ssh_dispatcher`), set `obj.device_type` and `obj.__class__`, and call
`_try_session_preparation()` exactly when `session_prep` is set.  The
in-place mutation of `obj` is rendered as the returned updated handle,
and the second component records whether session preparation ran. -/
def redispatch (obj : BaseConnection) (device_type : String)
    (session_prep : Bool) : Except PyExc (BaseConnection × Bool) :=
  match ssh_dispatcher device_type with
  | Except.error e => Except.error e
  | Except.ok new_class =>
      Except.ok ({ obj with device_type := device_type, cls := new_class },
        session_prep)

/-- Modelled from the spec: the SCP registry `FILE_TRANSFER_MAP`, missing
from the source slice — "mapping from device-type string to
file-transfer-handler type, same invariants"; the handler type names are
the `*FileTransfer` classes the source imports, keyed by their platform. -/
def FILE_TRANSFER_MAP : List (String × String) :=
  [("arista_eos", "AristaFileTransfer"),
   ("ciena_saos", "CienaSaosFileTransfer"),
   ("cisco_asa", "CiscoAsaFileTransfer"),
   ("cisco_ios", "CiscoIosFileTransfer"),
   ("cisco_nxos", "CiscoNxosFileTransfer"),
   ("cisco_xr", "CiscoXrFileTransfer"),
   ("dell_os10", "DellOS10FileTransfer"),
   ("extreme_exos", "ExtremeExosFileTransfer")]

/-- The list of device-type keys supporting file transfer. -/
def scp_platforms : List String := FILE_TRANSFER_MAP.map Prod.fst

/-- Modelled from the spec: the display string of supported SCP platforms
used in the `FileTransfer` error message. -/
def scp_platforms_str : String :=
  "\n" ++ String.intercalate "\n" scp_platforms

/-- A file-transfer handle: the selected transfer class bound to the
connection it operates on. -/
structure BaseFileTransfer where
  conn : BaseConnection
  cls : String
deriving DecidableEq, Repr

/-- The connection whose `device_type` drives `FileTransfer`'s dispatch:
`args[0]` when at least one positional argument is given, else the
`ssh_conn` keyword argument (a missing keyword is a `KeyError`). -/
def fileTransferConn (args : List BaseConnection)
    (ssh_conn : Option BaseConnection) : Except PyExc BaseConnection :=
  match args with
  | a :: _ => Except.ok a
  | [] =>
    match ssh_conn with
    | some c => Except.ok c
    | none => Except.error (PyExc.KeyErr "ssh_conn")

/-- `FileTransfer` from the source: read the device type from the first
positional argument or the `ssh_conn` keyword, raise `ValueError` listing
the supported SCP platforms when it is not an SCP platform, else look the
transfer class up in `FILE_TRANSFER_MAP` and construct it bound to the
connection. -/
def FileTransfer (args : List BaseConnection)
    (ssh_conn : Option BaseConnection) : Except PyExc BaseFileTransfer :=
  match fileTransferConn args ssh_conn with
  | Except.error e => Except.error e
  | Except.ok conn =>
    let device_type := conn.device_type
    if scp_platforms.contains device_type = false then
      Except.error (PyExc.ValueErr
        ("Unsupported SCP device_type: currently supported platforms are: "
          ++ scp_platforms_str))
    else
      match FILE_TRANSFER_MAP.lookup device_type with
      | some FileTransferClass =>
          Except.ok ⟨conn, FileTransferClass⟩
      | none => Except.error (PyExc.KeyErr device_type)

/-! ### Helper lemmas about the substring test -/

theorem listBeginsWith_append (s t : List Char) :
    listBeginsWith s (s ++ t) = true := by
  induction s with
  | nil => rfl
  | cons a as ih => simp [listBeginsWith, ih]

theorem listContainsSub_of_beginsWith {n l : List Char}
    (h : listBeginsWith n l = true) : listContainsSub n l = true := by
  cases l with
  | nil =>
    cases n with
    | nil => rfl
    | cons a as => simp [listBeginsWith] at h
  | cons b bs => simp [listContainsSub, h]

theorem listContainsSub_append_left {n l : List Char} (x : List Char)
    (h : listContainsSub n l = true) :
    listContainsSub n (x ++ l) = true := by
  induction x with
  | nil => simpa using h
  | cons a as ih => simp [listContainsSub, ih]

/-- If the haystack's characters split as `x ++ needle ++ y`, the Python
substring test succeeds. -/
theorem strIn_of_data_eq (n h : String) (x y : List Char)
    (heq : h.data = x ++ (n.data ++ y)) : strIn n h = true := by
  unfold strIn
  rw [heq]
  exact listContainsSub_append_left x
    (listContainsSub_of_beginsWith (listBeginsWith_append _ _))

/-- A key that occurs among the first components of an association list
has a successful lookup. -/
theorem lookup_mem_of_mem_keys {l : List (String × String)} {a : String}
    (h : a ∈ l.map Prod.fst) : ∃ b, l.lookup a = some b := by
  induction l with
  | nil => simp at h
  | cons p t ih =>
    rw [List.map_cons, List.mem_cons] at h
    by_cases hk : a = p.1
    · exact ⟨p.2, by
        cases p with
        | mk k v => simp_all [List.lookup]⟩
    · have h' := h.resolve_left hk
      rcases ih h' with ⟨b, hb⟩
      refine ⟨b, ?_⟩
      cases p with
      | mk k v =>
        have hbeq : (a == k) = false := beq_eq_false_iff_ne.mpr hk
        simp [List.lookup, hbeq, hb]

/-! ### Theorems settling the claims -/

/-- C8: every key of the SCP registry `FILE_TRANSFER_MAP` is also a key
of the platform registry `CLASS_MAPPER`.  Both registries are closed Lean
constants of this embedding, so they are fixed for the lifetime of the
process by construction. -/
theorem scp_registry_subset_platform_registry :
    (FILE_TRANSFER_MAP.map Prod.fst).all
      (fun k => (CLASS_MAPPER.map Prod.fst).contains k) = true := by
  decide

/-- C9: for every handle and every device type with a registered handler
class, `redispatch` updates the handle so that its `device_type` is the
new device type and its effective class is the registered handler class,
leaves host, port and session state unchanged, and triggers session
preparation exactly when `session_prep` is requested (second component of
the result); it produces no other return value. -/
theorem redispatch_updates_type_in_place (obj : BaseConnection)
    (device_type cls : String) (session_prep : Bool)
    (hcls : ssh_dispatcher device_type = Except.ok cls) :
    ∃ obj2, redispatch obj device_type session_prep =
        Except.ok (obj2, session_prep) ∧
      obj2.device_type = device_type ∧ obj2.cls = cls ∧
      obj2.host = obj.host ∧ obj2.port = obj.port ∧
      obj2.is_open = obj.is_open := by
  refine ⟨{ obj with device_type := device_type, cls := cls },
    ?_, rfl, rfl, rfl, rfl, rfl⟩
  unfold redispatch
  rw [hcls]

/-- Witness for C9: redispatching a terminal-server handle to
`cisco_ios` concretely. -/
theorem redispatch_updates_type_in_place_witness :
    ∃ obj2, redispatch ⟨"h1", 22, "terminal_server", "TerminalServerSSH",
        true⟩ "cisco_ios" true = Except.ok (obj2, true) ∧
      obj2.device_type = "cisco_ios" ∧ obj2.cls = "CiscoIosSSH" ∧
      obj2.host = "h1" ∧ obj2.port = 22 ∧ obj2.is_open = true :=
  redispatch_updates_type_in_place
    ⟨"h1", 22, "terminal_server", "TerminalServerSSH", true⟩
    "cisco_ios" "CiscoIosSSH" true rfl

/-- C10: with at least one positional argument, `FileTransfer` dispatches
on the first positional argument's `device_type`, and the `ssh_conn`
keyword argument is ignored for selecting the transfer class (the result
does not depend on it); the keyword's `device_type` is consulted only
when no positional argument is given. -/
theorem fileTransfer_positional_wins (a : BaseConnection)
    (rest : List BaseConnection) (s1 s2 : Option BaseConnection)
    (c : BaseConnection) :
    FileTransfer (a :: rest) s1 = FileTransfer (a :: rest) s2 ∧
    fileTransferConn (a :: rest) s1 = Except.ok a ∧
    fileTransferConn [] (some c) = Except.ok c :=
  ⟨rfl, rfl, rfl⟩

/-- C6: for every device type present in the platform registry, dispatch
looks up the handler type mapped to that key and constructs it with the
supplied arguments: whenever the constructor does not raise (unopened
handle, or auto-opened with a succeeding transport), `ConnectHandler`
returns a handle whose `device_type` equals the input device type, whose
effective class is the one `ssh_dispatcher` maps the key to, and whose
host and port are the supplied ones. -/
theorem connectHandler_registered (beh : OpenOutcome)
    (kwargs : ConnParams) (dt : String)
    (hdt : kwargs.device_type = some dt) (hplat : dt ∈ platforms)
    (hopen : kwargs.auto_connect = false ∨ beh = OpenOutcome.success) :
    ∃ h, ConnectHandler beh kwargs = Except.ok h ∧ h.device_type = dt ∧
      ssh_dispatcher dt = Except.ok h.cls ∧
      h.host = kwargs.host ∧ h.port = kwargs.port := by
  have hc : platforms.contains dt = true := List.elem_iff.mpr hplat
  rcases lookup_mem_of_mem_keys (l := CLASS_MAPPER) hplat with ⟨cls, hcls⟩
  have hdisp : ssh_dispatcher dt = Except.ok cls := by
    unfold ssh_dispatcher
    rw [hcls]
  rcases hopen with hauto | hsucc
  · refine ⟨⟨kwargs.host, kwargs.port, dt, cls, false⟩, ?_, rfl, hdisp,
      rfl, rfl⟩
    unfold ConnectHandler
    rw [hdt]
    simp only [hc, Bool.true_eq_false, if_false, hdisp]
    unfold constructConnection
    rw [hauto]
    simp
  · refine ⟨⟨kwargs.host, kwargs.port, dt, cls,
      if kwargs.auto_connect then true else false⟩, ?_, rfl, hdisp,
      rfl, rfl⟩
    unfold ConnectHandler
    rw [hdt]
    simp only [hc, Bool.true_eq_false, if_false, hdisp]
    unfold constructConnection
    rw [hsucc]
    by_cases hac : kwargs.auto_connect <;> simp [hac]

/-- Witness for C6: dispatching `cisco_xr` with a succeeding transport. -/
theorem connectHandler_registered_witness :
    ∃ h, ConnectHandler OpenOutcome.success
        ⟨some "cisco_xr", "rtr9", 2202, true⟩ = Except.ok h ∧
      h.device_type = "cisco_xr" ∧
      ssh_dispatcher "cisco_xr" = Except.ok h.cls ∧
      h.host = "rtr9" ∧ h.port = 2202 :=
  connectHandler_registered OpenOutcome.success
    ⟨some "cisco_xr", "rtr9", 2202, true⟩ "cisco_xr" rfl (by decide)
    (Or.inr rfl)

/-- C7: for every connection whose device type is not in the SCP
registry — regardless of whether it is in the platform registry —
`FileTransfer` raises `ValueError` listing the supported SCP platforms;
for every device type in the SCP registry it constructs and returns the
mapped transfer handler bound to the connection. -/
theorem fileTransfer_dispatch (args : List BaseConnection)
    (ssh_conn : Option BaseConnection) (conn : BaseConnection)
    (hconn : fileTransferConn args ssh_conn = Except.ok conn) :
    (conn.device_type ∉ scp_platforms →
      FileTransfer args ssh_conn = Except.error (PyExc.ValueErr
        ("Unsupported SCP device_type: currently supported platforms are: "
          ++ scp_platforms_str))) ∧
    (conn.device_type ∈ scp_platforms →
      ∃ cls, FILE_TRANSFER_MAP.lookup conn.device_type = some cls ∧
        FileTransfer args ssh_conn = Except.ok ⟨conn, cls⟩) := by
  constructor
  · intro hout
    have hc : scp_platforms.contains conn.device_type = false := by
      cases h' : scp_platforms.contains conn.device_type
      · rfl
      · exact absurd (List.elem_iff.mp h') hout
    unfold FileTransfer
    rw [hconn]
    dsimp only
    rw [hc]
    simp
  · intro hmem
    have hc : scp_platforms.contains conn.device_type = true :=
      List.elem_iff.mpr hmem
    rcases lookup_mem_of_mem_keys (l := FILE_TRANSFER_MAP) hmem
      with ⟨cls, hcls⟩
    refine ⟨cls, hcls, ?_⟩
    unfold FileTransfer
    rw [hconn]
    dsimp only
    rw [hc, hcls]
    simp

/-- Witness for C7: `terminal_server` is in the platform registry but not
in the SCP registry, and still raises the unsupported-SCP error; a
`cisco_nxos` connection gets its transfer handler. -/
theorem fileTransfer_dispatch_witness :
    ("terminal_server" ∈ platforms ∧
      FileTransfer [⟨"h2", 22, "terminal_server", "TerminalServerSSH",
          true⟩] none = Except.error (PyExc.ValueErr
        ("Unsupported SCP device_type: currently supported platforms are: "
          ++ scp_platforms_str))) ∧
    ∃ cls, FILE_TRANSFER_MAP.lookup "cisco_nxos" = some cls ∧
      FileTransfer [⟨"h3", 22, "cisco_nxos", "CiscoNxosSSH", true⟩] none =
        Except.ok ⟨⟨"h3", 22, "cisco_nxos", "CiscoNxosSSH", true⟩, cls⟩ :=
  ⟨⟨by decide,
    (fileTransfer_dispatch
      [⟨"h2", 22, "terminal_server", "TerminalServerSSH", true⟩] none
      ⟨"h2", 22, "terminal_server", "TerminalServerSSH", true⟩ rfl).1
      (by decide)⟩,
   (fileTransfer_dispatch
      [⟨"h3", 22, "cisco_nxos", "CiscoNxosSSH", true⟩] none
      ⟨"h3", 22, "cisco_nxos", "CiscoNxosSSH", true⟩ rfl).2
      (by decide)⟩

/-- C2: for every device-type string not present in the platform
registry, `ConnectHandler` raises `ValueError`; its message holds the
Telnet-filtered platform list exactly when the input string contains
"telnet" and the base platform list otherwise, and the chosen list string
mentions every Telnet-variant key (resp. every base platform name) of the
registry. -/
theorem connectHandler_unsupported (beh : OpenOutcome)
    (kwargs : ConnParams) (dt : String)
    (hdt : kwargs.device_type = some dt) (hplat : dt ∉ platforms) :
    ∃ msg, ConnectHandler beh kwargs =
        Except.error (PyExc.ValueErr msg) ∧
      (strIn "telnet" dt = true →
        msg = "Unsupported 'device_type' currently supported platforms are: "
          ++ telnet_platforms_str ∧
        ∀ p ∈ telnet_platforms, strIn p msg = true) ∧
      (strIn "telnet" dt = false →
        msg = "Unsupported 'device_type' currently supported platforms are: "
          ++ platforms_str ∧
        ∀ p ∈ platforms_base, strIn p msg = true) := by
  have hc : platforms.contains dt = false := by
    cases h' : platforms.contains dt
    · rfl
    · exact absurd (List.elem_iff.mp h') hplat
  refine ⟨unsupportedMsg (some dt), ?_, ?_, ?_⟩
  · unfold ConnectHandler
    rw [hdt]
    dsimp only
    rw [hc]
    simp
  · intro ht
    have hmsg : unsupportedMsg (some dt) =
        "Unsupported 'device_type' currently supported platforms are: "
          ++ telnet_platforms_str := by
      unfold unsupportedMsg
      dsimp only
      rw [ht]
      simp
    refine ⟨hmsg, ?_⟩
    rw [hmsg]
    intro p hp
    fin_cases hp <;> decide
  · intro ht
    have hmsg : unsupportedMsg (some dt) =
        "Unsupported 'device_type' currently supported platforms are: "
          ++ platforms_str := by
      unfold unsupportedMsg
      dsimp only
      rw [ht]
      simp
    refine ⟨hmsg, ?_⟩
    rw [hmsg]
    intro p hp
    fin_cases hp <;> decide

/-- Witness for C2: the unregistered intent string `frobozz_telnet` gets
the Telnet-filtered list, and the unregistered `frobozz` the base
list. -/
theorem connectHandler_unsupported_witness :
    (∃ msg, ConnectHandler OpenOutcome.success
        ⟨some "frobozz_telnet", "h4", 23, true⟩ =
          Except.error (PyExc.ValueErr msg) ∧
      (strIn "telnet" "frobozz_telnet" = true →
        msg = "Unsupported 'device_type' currently supported platforms are: "
          ++ telnet_platforms_str ∧
        ∀ p ∈ telnet_platforms, strIn p msg = true) ∧
      (strIn "telnet" "frobozz_telnet" = false →
        msg = "Unsupported 'device_type' currently supported platforms are: "
          ++ platforms_str ∧
        ∀ p ∈ platforms_base, strIn p msg = true)) ∧
    (∃ msg, ConnectHandler OpenOutcome.success
        ⟨some "frobozz", "h4", 22, true⟩ =
          Except.error (PyExc.ValueErr msg) ∧
      (strIn "telnet" "frobozz" = true →
        msg = "Unsupported 'device_type' currently supported platforms are: "
          ++ telnet_platforms_str ∧
        ∀ p ∈ telnet_platforms, strIn p msg = true) ∧
      (strIn "telnet" "frobozz" = false →
        msg = "Unsupported 'device_type' currently supported platforms are: "
          ++ platforms_str ∧
        ∀ p ∈ platforms_base, strIn p msg = true)) :=
  ⟨connectHandler_unsupported OpenOutcome.success
      ⟨some "frobozz_telnet", "h4", 23, true⟩ "frobozz_telnet" rfl
      (by decide),
   connectHandler_unsupported OpenOutcome.success
      ⟨some "frobozz", "h4", 22, true⟩ "frobozz" rfl (by decide)⟩

/-- With `auto_connect = False` the dispatcher either returns an unopened
handle carrying the supplied host/port and registered device type, or
raises the unsupported-platform `ValueError`; nothing else can happen in
this phase. -/
theorem connectHandler_unopened (beh : OpenOutcome) (kwargs : ConnParams)
    (hac : kwargs.auto_connect = false) :
    (∃ dt cls, kwargs.device_type = some dt ∧ dt ∈ platforms ∧
      ConnectHandler beh kwargs =
        Except.ok ⟨kwargs.host, kwargs.port, dt, cls, false⟩) ∨
    ((∀ dt, kwargs.device_type = some dt → dt ∉ platforms) ∧
      ConnectHandler beh kwargs =
        Except.error (PyExc.ValueErr (unsupportedMsg kwargs.device_type))) := by
  cases hdt : kwargs.device_type with
  | none =>
    right
    refine ⟨fun dt h => by simp [hdt] at h, ?_⟩
    unfold ConnectHandler
    rw [hdt]
  | some dt =>
    cases hc : platforms.contains dt with
    | false =>
      right
      constructor
      · intro dt' h
        injection h with h'
        subst h'
        intro hm
        have hmc : platforms.contains dt = true := List.elem_iff.mpr hm
        rw [hmc] at hc
        exact Bool.noConfusion hc
      · unfold ConnectHandler
        rw [hdt]
        dsimp only
        rw [hc]
        simp
    | true =>
      left
      have hmem : dt ∈ platforms := List.elem_iff.mp hc
      rcases lookup_mem_of_mem_keys (l := CLASS_MAPPER) hmem with ⟨cls, hcls⟩
      refine ⟨dt, cls, rfl, hmem, ?_⟩
      unfold ConnectHandler
      rw [hdt]
      dsimp only
      rw [hc]
      simp only [Bool.true_eq_false, if_false]
      unfold ssh_dispatcher
      rw [hcls]
      unfold constructConnection
      rw [hac]
      simp

/-- C1: `ConnLogOnly` never raises — for every transport outcome it
returns a value, and for every raising outcome (authentication failure,
timeout with DNS failure, timeout with TCP-connect failure, generic
timeout, or any other exception) it returns no handle together with
exactly one categorised error-level log line. -/
theorem connLogOnly_never_raises (beh : OpenOutcome)
    (kwargs : ConnParams) :
    (∃ r, ConnLogOnly beh kwargs = Except.ok r) ∧
    (∀ e, beh = OpenOutcome.raiseExc e →
      ∃ msg, ConnLogOnly beh kwargs =
        Except.ok (none, [(LogLevel.error, msg)])) := by
  rcases connectHandler_unopened beh { kwargs with auto_connect := false }
    rfl with ⟨dt, cls, hdt, hmem, hok⟩ | ⟨hbad, herr⟩
  · have key : ∀ e, beh = OpenOutcome.raiseExc e →
        ∃ msg, ConnLogOnly beh kwargs =
          Except.ok (none, [(LogLevel.error, msg)]) := by
      intro e he
      subst he
      unfold ConnLogOnly
      rw [hok]
      simp only [conn_open]
      cases e
      case NetmikoTimeout m =>
        dsimp only
        split
        · exact ⟨_, rfl⟩
        · split
          · exact ⟨_, rfl⟩
          · exact ⟨_, rfl⟩
      all_goals exact ⟨_, rfl⟩
    constructor
    · cases beh with
      | success =>
        exact ⟨_, by unfold ConnLogOnly; rw [hok]; rfl⟩
      | raiseExc e =>
        rcases key e rfl with ⟨msg, hmsg⟩
        exact ⟨_, hmsg⟩
    · exact key
  · constructor
    · exact ⟨_, by unfold ConnLogOnly; rw [herr]⟩
    · intro e he
      exact ⟨_, by unfold ConnLogOnly; rw [herr]⟩

/-- Witness for C1: an unknown exception during connection to a
registered platform yields `None` plus one error log line. -/
theorem connLogOnly_never_raises_witness :
    ∃ msg, ConnLogOnly (OpenOutcome.raiseExc (PyExc.OtherExc "boom"))
        ⟨some "cisco_ios", "10.0.0.7", 22, true⟩ =
      Except.ok (none, [(LogLevel.error, msg)]) :=
  (connLogOnly_never_raises
    (OpenOutcome.raiseExc (PyExc.OtherExc "boom"))
    ⟨some "cisco_ios", "10.0.0.7", 22, true⟩).2
    (PyExc.OtherExc "boom") rfl

/-- A string contains any of its suffixes as a substring. -/
theorem strIn_append_right (n x : String) : strIn n (x ++ n) = true :=
  strIn_of_data_eq n (x ++ n) x.data [] (by
    simp [String.data_append])

/-- C4: `ConnUnify` either returns a valid open handle (never a partial
or unopened one) or raises exactly the unified exception type
`ConnectionException`; no other exception type escapes, and when the
transport raised during connection to a registered platform the payload
preserves the original error message as a substring. -/
theorem connUnify_contract (beh : OpenOutcome) (kwargs : ConnParams) :
    (∃ h, ConnUnify beh kwargs = Except.ok h ∧ h.is_open = true) ∨
    (∃ m, ConnUnify beh kwargs = Except.error (PyExc.ConnectionExc m) ∧
      ∀ e, beh = OpenOutcome.raiseExc e →
        (∃ dt, kwargs.device_type = some dt ∧ dt ∈ platforms) →
        strIn (PyExc.msg e) m = true) := by
  rcases connectHandler_unopened beh { kwargs with auto_connect := false }
    rfl with ⟨dt, cls, hdt, hmem, hok⟩ | ⟨hbad, herr⟩
  · cases beh with
    | success =>
      left
      refine ⟨⟨kwargs.host, kwargs.port, dt, cls, true⟩, ?_, rfl⟩
      unfold ConnUnify
      rw [hok]
      rfl
    | raiseExc e0 =>
      right
      cases e0 <;>
        (refine ⟨_, (by unfold ConnUnify; rw [hok]; try rfl), ?_⟩;
         intro e he hdev;
         injection he with he';
         subst he';
         exact strIn_append_right _ _)
  · right
    refine ⟨_, (by unfold ConnUnify; rw [herr]; try rfl), ?_⟩
    intro e he hdev
    rcases hdev with ⟨dt, hdt, hmem⟩
    exact absurd hmem (hbad dt hdt)

/-- Witness for C4: an authentication failure on a registered platform is
wrapped in the unified exception type with its message preserved. -/
theorem connUnify_contract_witness :
    (∃ h, ConnUnify (OpenOutcome.raiseExc (PyExc.NetmikoAuth "denied"))
        ⟨some "cisco_ios", "10.1.1.1", 22, true⟩ = Except.ok h ∧
      h.is_open = true) ∨
    (∃ m, ConnUnify (OpenOutcome.raiseExc (PyExc.NetmikoAuth "denied"))
        ⟨some "cisco_ios", "10.1.1.1", 22, true⟩ =
          Except.error (PyExc.ConnectionExc m) ∧
      ∀ e, OpenOutcome.raiseExc (PyExc.NetmikoAuth "denied") =
          OpenOutcome.raiseExc e →
        (∃ dt, (some "cisco_ios" : Option String) = some dt ∧
          dt ∈ platforms) →
        strIn (PyExc.msg e) m = true) :=
  connUnify_contract (OpenOutcome.raiseExc (PyExc.NetmikoAuth "denied"))
    ⟨some "cisco_ios", "10.1.1.1", 22, true⟩

/-- C5 counterexample: on a timeout whose message reports a DNS failure,
the single log line names only the hostname — it does not contain
`host:port`, refuting "each failure log line contains host:port". -/
theorem connLogOnly_dns_line_lacks_port :
    ConnLogOnly (OpenOutcome.raiseExc (PyExc.NetmikoTimeout
        "DNS failure resolving host"))
      ⟨some "cisco_ios", "10.0.0.5", 22, true⟩ =
      Except.ok (none, [(LogLevel.error,
        "Device failed due to a DNS failure, hostname 10.0.0.5")]) ∧
    strIn "10.0.0.5:22"
      "Device failed due to a DNS failure, hostname 10.0.0.5" = false :=
  ⟨rfl, by decide⟩

/-- C5 (amended): every connection-phase failure on a registered platform
makes `ConnLogOnly` emit exactly one error-level log line; the
authentication-failure and TCP-connect-failure lines contain host:port,
while the DNS-failure line contains the hostname only (no port). -/
theorem connLogOnly_log_line_content (e : PyExc) (kwargs : ConnParams)
    (dt : String) (hdt : kwargs.device_type = some dt)
    (hplat : dt ∈ platforms) :
    ∃ msg, ConnLogOnly (OpenOutcome.raiseExc e) kwargs =
        Except.ok (none, [(LogLevel.error, msg)]) ∧
      (∀ m, e = PyExc.NetmikoAuth m →
        strIn (kwargs.host ++ ":" ++ toString kwargs.port) msg = true) ∧
      (∀ m, e = PyExc.NetmikoTimeout m → strIn "DNS failure" m = false →
        strIn "TCP connection to device failed" m = true →
        strIn (kwargs.host ++ ":" ++ toString kwargs.port) msg = true) ∧
      (∀ m, e = PyExc.NetmikoTimeout m → strIn "DNS failure" m = true →
        strIn kwargs.host msg = true) := by
  rcases connectHandler_unopened (OpenOutcome.raiseExc e)
    { kwargs with auto_connect := false } rfl
    with ⟨dt', cls, hdt', hmem', hok⟩ | ⟨hbad, herr⟩
  · unfold ConnLogOnly
    rw [hok]
    simp only [conn_open]
    cases e
    case NetmikoAuth em =>
      dsimp only
      refine ⟨_, rfl, ?_, ?_, ?_⟩
      · intro m hm
        injection hm with hm'
        subst hm'
        exact strIn_of_data_eq (kwargs.host ++ ":" ++ toString kwargs.port)
          _ ("Authentication failure to: ".data)
          ((" (" ++ dt' ++ ")\n\n" ++ em).data)
          (by simp [String.data_append, List.append_assoc])
      · intro m hm
        exact PyExc.noConfusion hm
      · intro m hm
        exact PyExc.noConfusion hm
    case NetmikoTimeout em =>
      dsimp only
      split
      · rename_i hdns
        refine ⟨_, rfl, ?_, ?_, ?_⟩
        · intro m hm
          exact PyExc.noConfusion hm
        · intro m hm hdns' htcp'
          injection hm with hm'
          subst hm'
          rw [hdns] at hdns'
          exact Bool.noConfusion hdns'
        · intro m hm hd
          exact strIn_append_right kwargs.host _
      · rename_i hdns
        split
        · rename_i htcp
          refine ⟨_, rfl, ?_, ?_, ?_⟩
          · intro m hm
            exact PyExc.noConfusion hm
          · intro m hm hdns' htcp'
            injection hm with hm'
            subst hm'
            exact strIn_of_data_eq
              (kwargs.host ++ ":" ++ toString kwargs.port) _
              ("Netmiko was unable to reach the provided host and port: ".data)
              (("\n\n" ++ em).data)
              (by simp [String.data_append, List.append_assoc])
          · intro m hm hd
            injection hm with hm'
            subst hm'
            exact absurd hd (by
              intro hcontra
              exact hdns hcontra)
        · rename_i htcp
          refine ⟨_, rfl, ?_, ?_, ?_⟩
          · intro m hm
            exact PyExc.noConfusion hm
          · intro m hm hdns' htcp'
            injection hm with hm'
            subst hm'
            exact absurd htcp' htcp
          · intro m hm hd
            injection hm with hm'
            subst hm'
            exact absurd hd hdns
    all_goals exact ⟨_, rfl, fun m hm => PyExc.noConfusion hm,
      fun m hm => PyExc.noConfusion hm, fun m hm => PyExc.noConfusion hm⟩
  · exact absurd hplat (hbad dt hdt)

/-- Witness for C5 (amended): a concrete authentication failure logs one
line containing `10.9.9.9:2022`. -/
theorem connLogOnly_log_line_content_witness :
    ∃ msg, ConnLogOnly
        (OpenOutcome.raiseExc (PyExc.NetmikoAuth "denied"))
        ⟨some "cisco_ios", "10.9.9.9", 2022, true⟩ =
        Except.ok (none, [(LogLevel.error, msg)]) ∧
      (∀ m, PyExc.NetmikoAuth "denied" = PyExc.NetmikoAuth m →
        strIn ("10.9.9.9" ++ ":" ++ toString 2022) msg = true) ∧
      (∀ m, PyExc.NetmikoAuth "denied" = PyExc.NetmikoTimeout m →
        strIn "DNS failure" m = false →
        strIn "TCP connection to device failed" m = true →
        strIn ("10.9.9.9" ++ ":" ++ toString 2022) msg = true) ∧
      (∀ m, PyExc.NetmikoAuth "denied" = PyExc.NetmikoTimeout m →
        strIn "DNS failure" m = true → strIn "10.9.9.9" msg = true) :=
  connLogOnly_log_line_content (PyExc.NetmikoAuth "denied")
    ⟨some "cisco_ios", "10.9.9.9", 2022, true⟩ "cisco_ios" rfl (by decide)

/-- C3 counterexample: a registered Telnet device type that times out is
neither given a fallback nor re-raised — the device type occurs neither
in the base-platform string nor contains `_ssh`, so reading the
unassigned local `alternative_device` raises `UnboundLocalError`, a
different error from the original timeout. -/
theorem telnetFallback_telnet_input_not_reraised :
    TelnetFallback
        (OpenOutcome.raiseExc (PyExc.NetmikoTimeout "timed-out"))
        OpenOutcome.success
        ⟨some "cisco_ios_telnet", "10.0.0.9", 23, true⟩ =
      Except.error (PyExc.UnboundLocal
        "local variable referenced before assignment") ∧
    ∀ m, (Except.error (PyExc.UnboundLocal
        "local variable referenced before assignment") :
          Except PyExc BaseConnection) ≠
      Except.error (PyExc.NetmikoTimeout m) := by
  refine ⟨rfl, ?_⟩
  intro m h
  exact PyExc.noConfusion (Except.error.inj h)

/-- C3 (amended): when an SSH dispatch attempt fails with a timeout or
refused connection and the device type either occurs in the base-platform
string or contains `_ssh`, `TelnetFallback` derives the Telnet-variant
key (append `_telnet`, resp. substitute `_ssh` by `_telnet`) and retries
exactly once with it when that key is registered — the retry's outcome,
success or failure, is what the caller sees — and re-raises the original
error when the derived key is not registered.  (Device types matching
neither form hit an `UnboundLocalError` instead; see the
counterexample.) -/
theorem telnetFallback_fallback_behaviour (beh1 beh2 : OpenOutcome)
    (kwargs : ConnParams) (dt : String) (e : PyExc)
    (hdt : kwargs.device_type = some dt)
    (hfail : ConnectHandler beh1 kwargs = Except.error e)
    (hcat : isTimeoutOrRefused e = true)
    (hform : strIn dt platforms_str = true ∨
      (strIn dt platforms_str = false ∧ strIn "_ssh" dt = true)) :
    ∃ ad, ad = (if strIn dt platforms_str then dt ++ "_telnet"
        else dt.replace "_ssh" "_telnet") ∧
      TelnetFallback beh1 beh2 kwargs =
        (if platforms.contains ad then
          ConnectHandler beh2 { kwargs with device_type := some ad }
        else Except.error e) := by
  rcases hform with h1 | ⟨h1, h2⟩
  · have halt : (if strIn dt platforms_str = true then
        some (dt ++ "_telnet")
      else if strIn "_ssh" dt = true then
        some (dt.replace "_ssh" "_telnet")
      else none) = some (dt ++ "_telnet") := by
      rw [h1]
      simp
    refine ⟨dt ++ "_telnet", by rw [h1]; simp, ?_⟩
    unfold TelnetFallback
    rw [hfail]
    dsimp only
    rw [hcat, hdt]
    dsimp only
    rw [halt]
    simp
  · have halt : (if strIn dt platforms_str = true then
        some (dt ++ "_telnet")
      else if strIn "_ssh" dt = true then
        some (dt.replace "_ssh" "_telnet")
      else none) = some (dt.replace "_ssh" "_telnet") := by
      rw [h1, h2]
      simp
    refine ⟨dt.replace "_ssh" "_telnet", by rw [h1]; simp, ?_⟩
    unfold TelnetFallback
    rw [hfail]
    dsimp only
    rw [hcat, hdt]
    dsimp only
    rw [halt]
    simp

/-- Witness for C3 (amended): `cisco_ios_ssh` timing out on the first
attempt is retried with the derived key `cisco_ios_telnet`. -/
theorem telnetFallback_fallback_behaviour_witness :
    ∃ ad, ad = (if strIn "cisco_ios_ssh" platforms_str then
        "cisco_ios_ssh" ++ "_telnet"
      else "cisco_ios_ssh".replace "_ssh" "_telnet") ∧
      TelnetFallback
          (OpenOutcome.raiseExc (PyExc.NetmikoTimeout "timed-out"))
          OpenOutcome.success ⟨some "cisco_ios_ssh", "r7", 22, true⟩ =
        (if platforms.contains ad then
          ConnectHandler OpenOutcome.success
            { (⟨some "cisco_ios_ssh", "r7", 22, true⟩ : ConnParams) with
                device_type := some ad }
        else Except.error (PyExc.NetmikoTimeout "timed-out")) :=
  telnetFallback_fallback_behaviour
    (OpenOutcome.raiseExc (PyExc.NetmikoTimeout "timed-out"))
    OpenOutcome.success ⟨some "cisco_ios_ssh", "r7", 22, true⟩
    "cisco_ios_ssh" (PyExc.NetmikoTimeout "timed-out") rfl rfl rfl
    (Or.inr ⟨by decide, by decide⟩)

end SshDispatcher
